import Mathlib

/-!
Verification of the cart subsystem of an e-commerce Go backend
(handlers `CreateCart`, `AddOrUpdateCartItem`, `GetAllCartItems`,
`RemoveCartItemFromCart`, `GetCart`, `DeleteCart` in the cart handler file,
data model in `internal/models`).

The handlers are embedded directly from the Go source.  The persistence
layer (`repository` package), the Redis client and the `utils` response
helpers are not part of the provided sources; they are modelled from the
spec's interface contracts (spec section 6) and marked as such.

Identifiers (Go `uuid.UUID`) are modelled as `Nat`; quantities and stock
counts (Go `int`) as `Int`.  Timestamps and TTLs are not modelled (no claim
is about real time); the cache is a key/payload association list, and JSON
(de)serialization of an item list is modelled by a payload that is either a
well-formed serialized list or corrupt.
-/

/-- Identifier, standing in for Go `uuid.UUID`. -/
abbrev UUID := Nat

/-- Model of `models.Cart` (cart.model.go): identifier and owning user.
Timestamps and the soft-delete marker are omitted; the store holds live
(non-deleted) rows only. -/
structure Cart where
  id : UUID
  userId : UUID
deriving DecidableEq, Repr

/-- Model of `models.CartItems` (part_001): row id, cart, product, quantity. -/
structure CartItems where
  id : UUID
  cartID : UUID
  productID : UUID
  quantity : Int
deriving DecidableEq, Repr

/-- Modelled from the spec: `Product` — "identifier, available-stock count,
consulted but not mutated by the cart subsystem" (spec section 3); the Go
model file for products is not among the provided sources.  The handler
reads its `NumberOfStock` field. -/
structure Product where
  id : UUID
  numberOfStock : Int
deriving DecidableEq, Repr

/-- A cached payload: either a well-formed serialized item list (result of
`json.Marshal` on a `[]models.CartItems`) or a corrupt blob that
`json.Unmarshal` rejects. -/
inductive Payload where
  | good (items : List CartItems)
  | corrupt
deriving DecidableEq, Repr

/-- Which external calls fail on this request.  Each flag makes the
corresponding store or cache round-trip return an error instead of its
normal result, so a handler run is a function of the durable state plus
this fault vector. -/
structure Faults where
  getCartFail : Bool := false
  createCartFail : Bool := false
  getProductFail : Bool := false
  getItemFail : Bool := false
  updateItemFail : Bool := false
  createItemFail : Bool := false
  listItemsFail : Bool := false
  removeItemFail : Bool := false
  cacheGetErr : Bool := false
  cacheSetErr : Bool := false
  cacheDelErr : Bool := false
deriving DecidableEq, Repr

/-- The no-fault vector: every external call behaves normally. -/
def noFaults : Faults := {}

/-- Modelled from the spec: the Cart Store's durable state (spec section 6,
"Cart Store" and "Stock Ledger Accessor").  `nextId` models the database
generating fresh row identifiers. -/
structure Store where
  carts : List Cart
  items : List CartItems
  products : List Product
  nextId : UUID
deriving DecidableEq, Repr

/-- The whole world a request sees: durable store, cart cache, faults. -/
structure World where
  store : Store
  cache : List (String × Payload)
  faults : Faults
deriving DecidableEq, Repr

/-- Errors a repository call can report: gorm's record-not-found versus any
other (internal) failure.  The Go handlers distinguish exactly these two. -/
inductive StoreErr where
  | notFound
  | internal
deriving DecidableEq, Repr

/-- Modelled from the spec: `getCartByUser(userId) -> Cart | notFound`
(spec section 6); any other failure is a store failure (spec section 7).
On failure no cart value is available (the Go pointer is nil). -/
def GetCartByUserId (f : Faults) (s : Store) (userId : UUID) :
    Except StoreErr Cart :=
  if f.getCartFail then .error .internal
  else match s.carts.find? (fun c => c.userId == userId) with
    | some c => .ok c
    | none => .error .notFound

/-- Modelled from the spec: `createCart(userId) -> ()` (spec section 6); the
database assigns the new cart's identifier. -/
def CreateCartStore (s : Store) (userId : UUID) : Store :=
  { s with
    carts := s.carts ++ [{ id := s.nextId, userId := userId }]
    nextId := s.nextId + 1 }

/-- Modelled from the spec: `getProduct(productId) -> (availableStock, found)`
(spec section 6, Stock Ledger Accessor). -/
def GetProductByUUID (f : Faults) (s : Store) (productId : UUID) :
    Except StoreErr Product :=
  if f.getProductFail then .error .internal
  else match s.products.find? (fun p => p.id == productId) with
    | some p => .ok p
    | none => .error .notFound

/-- Modelled from the spec: `getItem(cartId, productId) -> CartItem | notFound`
(spec section 6). -/
def GetCartItem (f : Faults) (s : Store) (cartId productId : UUID) :
    Except StoreErr CartItems :=
  if f.getItemFail then .error .internal
  else match s.items.find? (fun it => it.cartID == cartId && it.productID == productId) with
    | some it => .ok it
    | none => .error .notFound

/-- Modelled from the spec: `updateItem(item) -> ()` (spec section 6):
persists the given row in place of the stored row with the same id. -/
def UpdateCartItem (s : Store) (item : CartItems) : Store :=
  { s with items := s.items.map (fun it => if it.id == item.id then item else it) }

/-- Modelled from the spec: `createItem(item) -> ()` (spec section 6); the
database assigns the new row's identifier. -/
def CreateCartItem (s : Store) (cartID productID : UUID) (quantity : Int) : Store :=
  { s with
    items := s.items ++ [{ id := s.nextId, cartID := cartID,
                           productID := productID, quantity := quantity }]
    nextId := s.nextId + 1 }

/-- Modelled from the spec: `listItems(cartId) -> [CartItem]` (spec section 6). -/
def GetCartItems (f : Faults) (s : Store) (cartId : UUID) :
    Except StoreErr (List CartItems) :=
  if f.listItemsFail then .error .internal
  else .ok (s.items.filter (fun it => it.cartID == cartId))

/-- Modelled from the spec: `deleteItem(cartId, productId) -> ()`
(spec section 6); deleting a non-existent row is not an error
(spec section 4.4, idempotent removal). -/
def RemoveCartItemFrom (f : Faults) (s : Store) (cartId productId : UUID) :
    Except StoreErr Store :=
  if f.removeItemFail then .error .internal
  else .ok { s with
    items := s.items.filter (fun it => !(it.cartID == cartId && it.productID == productId)) }

/-- Result of a cache `get`: hit with a payload, clean miss (`redis.Nil`),
or any other error (spec section 6: `get(key) -> payload | miss | error`). -/
inductive CacheGet where
  | hit (p : Payload)
  | miss
  | err
deriving DecidableEq, Repr

/-- Modelled from the spec: the Cart Cache `get` (spec section 6). -/
def cacheGet (f : Faults) (cache : List (String × Payload)) (key : String) : CacheGet :=
  if f.cacheGetErr then .err
  else match cache.lookup key with
    | some p => .hit p
    | none => .miss

/-- Modelled from the spec: the Cart Cache `set` (spec section 6); on a set
error the entry is not written (the handler only logs the error).  The
24-hour TTL the source passes is not modelled (no real time). -/
def cacheSet (f : Faults) (cache : List (String × Payload)) (key : String)
    (p : Payload) : List (String × Payload) :=
  if f.cacheSetErr then cache
  else (key, p) :: cache.filter (fun e => e.1 != key)

/-- Modelled from the spec: the Cart Cache `delete` (spec section 6); on a
delete error the entry survives. -/
def cacheDel (f : Faults) (cache : List (String × Payload)) (key : String) :
    List (String × Payload) :=
  if f.cacheDelErr then cache
  else cache.filter (fun e => e.1 != key)

/-- The cache key the source builds with `fmt.Sprintf("cart:%s", id.String())`. -/
def cacheKey (id : UUID) : String := "cart:" ++ toString id

/-- Data payload carried by a response. -/
inductive RespData where
  | nodata
  | cart (c : Cart)
  | items (l : List CartItems)
deriving DecidableEq, Repr

/-- Modelled from the spec: the response shape surfaced to callers — "success
responses carry a status code, human-readable message, and a data payload;
failure responses carry a status code, message, and optional error detail"
(spec section 6, `utils.ResponseSuccess` / `utils.ResponseError`). -/
structure Response where
  status : Nat
  message : String
  success : Bool
  data : RespData
deriving DecidableEq, Repr

/-- `utils.ResponseSuccess(c, code, msg, data)`. -/
def respSuccess (status : Nat) (message : String) (data : RespData) : Response :=
  { status := status, message := message, success := true, data := data }

/-- `utils.ResponseError(c, code, msg, err)` (the error detail is dropped). -/
def respError (status : Nat) (message : String) : Response :=
  { status := status, message := message, success := false, data := .nodata }

/-- How a handler run ends: normal completion carrying the response it wrote
(if any — a Go handler may fall off the end without writing one), or a
runtime panic (nil-pointer dereference) after possibly writing one. -/
inductive Outcome where
  | ok (resp : Option Response)
  | panicked (written : Option Response)
deriving DecidableEq, Repr

/-- The body of `AddCartItemRequest` after JSON binding. -/
structure AddCartItemRequest where
  productID : UUID
  quantity : Int
deriving DecidableEq, Repr

/-- Handler `CreateCart` (cart handler file, lines 38-72), embedded from the
Go source.  `auth` is the authenticated user id from the request context
(`none` when absent → 401); the `uuid.Parse` step is treated as already
done, identity arriving pre-parsed. -/
def CreateCart (w : World) (auth : Option UUID) : World × Outcome :=
  match auth with
  | none => (w, .ok (some (respError 401 "Unauthorized")))
  | some userId =>
    match GetCartByUserId w.faults w.store userId with
    | .ok cart =>
        -- cart already exists
        (w, .ok (some (respSuccess 200 "Cart already exists" (.cart cart))))
    | .error .internal =>
        -- real DB error (not record not found)
        (w, .ok (some (respError 500 "Failed to fetch cart")))
    | .error .notFound =>
        -- create cart
        if w.faults.createCartFail then
          (w, .ok (some (respError 500 "Failed to create cart")))
        else
          ({ w with store := CreateCartStore w.store userId },
           .ok (some (respSuccess 201 "Cart created" .nodata)))

/-- Handler `AddOrUpdateCartItem` (cart handler file, lines 87-173), embedded
from the Go source.  The `binding:"required,min=1"` constraint on the request
body is the `quantity < 1` check; on the success path the Go function deletes
the cache entry for the cart and returns without writing any response. -/
def AddOrUpdateCartItem (w : World) (auth : Option UUID)
    (req : AddCartItemRequest) : World × Outcome :=
  if req.quantity < 1 then
    (w, .ok (some (respError 400 "Invalid request body")))
  else match auth with
  | none => (w, .ok (some (respError 401 "Unauthorized")))
  | some userId =>
    let cartRes :=
      match GetCartByUserId w.faults w.store userId with
      | .ok cart => Except.ok (w.store, cart)
      | .error .notFound =>
          -- lazily create the cart and fetch it again
          if w.faults.createCartFail then
            Except.error (respError 500 "Failed to create cart")
          else
            let s1 := CreateCartStore w.store userId
            match GetCartByUserId w.faults s1 userId with
            | .ok cart => Except.ok (s1, cart)
            | .error _ => Except.error (respError 500 "Failed to fetch cart")
      | .error .internal =>
          -- real internal error
          Except.error (respError 500 "Internal server error")
    match cartRes with
    | .error r => (w, .ok (some r))
    | .ok (s, cart) =>
      match GetProductByUUID w.faults s req.productID with
      | .error _ => ({ w with store := s }, .ok (some (respError 400 "Product does not exist")))
      | .ok product =>
        let afterWrite :=
          match GetCartItem w.faults s cart.id req.productID with
          | .ok cartItem =>
              -- Update quantity
              let currentQtyInCart := cartItem.quantity
              let cartItem := { cartItem with quantity := cartItem.quantity + req.quantity }
              if product.numberOfStock < req.quantity + currentQtyInCart then
                Except.error (respError 400 "Product out of stock")
              else if w.faults.updateItemFail then
                Except.error (respError 500 "Failed to update cart item")
              else Except.ok (UpdateCartItem s cartItem)
          | .error .notFound =>
              -- Add new cart item
              if 0 + req.quantity > product.numberOfStock then
                Except.error (respError 400 "Product out of stock")
              else if w.faults.createItemFail then
                Except.error (respError 500 "Failed to add cart item")
              else Except.ok (CreateCartItem s cart.id req.productID req.quantity)
          | .error .internal =>
              Except.error (respError 500 "Failed to fetch cart item")
        match afterWrite with
        | .error r => ({ w with store := s }, .ok (some r))
        | .ok s2 =>
            -- invalidate the cache for this cart; a Del failure is only logged;
            -- no response is written before the function returns
            ({ w with store := s2,
                      cache := cacheDel w.faults w.cache (cacheKey cart.id) },
             .ok none)

/-- Handler `GetAllCartItems` (cart handler file, lines 186-244), embedded
from the Go source.  The branch for a cart-lookup failure other than
record-not-found writes the 500 response but has no `return`, so execution
continues and dereferences the nil cart pointer when building the cache
key: that path ends in a panic. -/
def GetAllCartItems (w : World) (auth : Option UUID) : World × Outcome :=
  match auth with
  | none => (w, .ok (some (respError 401 "Unauthorized")))
  | some userId =>
    match GetCartByUserId w.faults w.store userId with
    | .error .notFound =>
        (w, .ok (some (respError 500 "Cart does not exist")))
    | .error .internal =>
        -- response written, but control falls through to `cart.ID` with cart nil
        (w, .panicked (some (respError 500 "Failed to fetch cart")))
    | .ok cart =>
      let key := cacheKey cart.id
      match cacheGet w.faults w.cache key with
      | .miss =>
          match GetCartItems w.faults w.store cart.id with
          | .error _ => (w, .ok (some (respError 401 "Failed to fetch")))
          | .ok cartItems =>
              -- serialize and store in the cache; a Set failure is only logged
              ({ w with cache := cacheSet w.faults w.cache key (.good cartItems) },
               .ok (some (respSuccess 200 "data fetch successfully" (.items cartItems))))
      | .err =>
          match GetCartItems w.faults w.store cart.id with
          | .error _ => (w, .ok (some (respError 401 "Failed to fetch")))
          | .ok cartItems =>
              (w, .ok (some (respSuccess 200 "data fetched from DB (Redis down)"
                              (.items cartItems))))
      | .hit p =>
          match p with
          | .corrupt => (w, .ok (some (respError 500 "Failed to parse cache")))
          | .good cartItems =>
              (w, .ok (some (respSuccess 200 "data fetched from Redis" (.items cartItems))))

/-- Handler `GetCart` (cart handler file, lines 259-261), embedded from the
Go source: the function body is empty. -/
def GetCart (w : World) (auth : Option UUID) (targetUserId : UUID) : World × Outcome :=
  (w, .ok none)

/-- Handler `DeleteCart` (cart handler file, lines 276-278), embedded from
the Go source: the function body is empty. -/
def DeleteCart (w : World) (auth : Option UUID) (targetUserId : UUID) : World × Outcome :=
  (w, .ok none)

/-- Handler `RemoveCartItemFromCart` (cart handler file, lines 293-327),
embedded from the Go source.  `productIdParam` is the path parameter after
`uuid.Parse` (`none` = parse failure).  Note the cache key on the success
path is built from the *user* id, and no response is written before the
function returns. -/
def RemoveCartItemFromCart (w : World) (auth : Option UUID)
    (productIdParam : Option UUID) : World × Outcome :=
  match auth with
  | none => (w, .ok (some (respError 401 "Unauthorized")))
  | some userId =>
    match GetCartByUserId w.faults w.store userId with
    | .error _ => (w, .ok (some (respError 500 "Failed to fetch cart")))
    | .ok cart =>
      match productIdParam with
      | none => (w, .ok (some (respError 400 "Invalid product ID")))
      | some productID =>
        match RemoveCartItemFrom w.faults w.store cart.id productID with
        | .error _ => (w, .ok (some (respError 500 "Failed to remove cart item")))
        | .ok s2 =>
            -- cache key built from userId, not cart.id; Del result ignored;
            -- no response is written before the function returns
            ({ w with store := s2,
                      cache := cacheDel w.faults w.cache (cacheKey userId) },
             .ok none)

/-- A concrete world for exercising the remove-item cache bug: user 1 owns
cart 2 holding one row for product 7; the cart cache holds the serialized
snapshot under the cart-id key, exactly as `GetAllCartItems` would have
stored it. -/
def removeWorld : World :=
  { store := { carts := [⟨2, 1⟩], items := [⟨3, 2, 7, 1⟩],
               products := [⟨7, 5⟩], nextId := 10 }
    cache := [(cacheKey 2, .good [⟨3, 2, 7, 1⟩])]
    faults := noFaults }

/-- C1: for a user whose cart id differs from their user id, a successful
remove-item deletes the row from the store but does NOT delete the cache
entry keyed by "cart:" + cartId (it deletes "cart:" + userId instead), so
the next list-items read returns the pre-removal cached snapshot. -/
theorem removeCartItem_leaves_cart_cache_entry :
    ((RemoveCartItemFromCart removeWorld (some 1) (some 7)).1.store.items = [] ∧
     (RemoveCartItemFromCart removeWorld (some 1) (some 7)).2 ≠
       .ok (some (respError 500 "Failed to remove cart item"))) ∧
    (RemoveCartItemFromCart removeWorld (some 1) (some 7)).1.cache.lookup (cacheKey 2) =
      some (.good [⟨3, 2, 7, 1⟩]) ∧
    (GetAllCartItems (RemoveCartItemFromCart removeWorld (some 1) (some 7)).1 (some 1)).2 =
      .ok (some (respSuccess 200 "data fetched from Redis" (.items [⟨3, 2, 7, 1⟩]))) := by
  decide

/-- A concrete clean world: user 1 owns empty cart 2; product 7 has stock 5. -/
def cleanWorld : World :=
  { store := { carts := [⟨2, 1⟩], items := [], products := [⟨7, 5⟩], nextId := 10 }
    cache := []
    faults := noFaults }

/-- C6: the success paths of add-or-update-item and remove-item write no
response at all: after a successful insert (the row is persisted) the
handler's outcome carries no response, and likewise after a successful
removal. -/
theorem success_paths_write_no_response :
    ((AddOrUpdateCartItem cleanWorld (some 1) ⟨7, 3⟩).1.store.items = [⟨10, 2, 7, 3⟩] ∧
     (AddOrUpdateCartItem cleanWorld (some 1) ⟨7, 3⟩).2 = .ok none) ∧
    ((RemoveCartItemFromCart (AddOrUpdateCartItem cleanWorld (some 1) ⟨7, 3⟩).1
        (some 1) (some 7)).1.store.items = [] ∧
     (RemoveCartItemFromCart (AddOrUpdateCartItem cleanWorld (some 1) ⟨7, 3⟩).1
        (some 1) (some 7)).2 = .ok none) := by
  decide

/-- C7: whenever the cart lookup in list-items fails with a store error other
than record-not-found, the handler writes the 500 response but control
continues past the branch (the source has no `return` there) and
dereferences the nil cart pointer while building the cache key: the run
panics after writing the response. -/
theorem getAllCartItems_nil_deref_after_error (w : World) (uid : UUID)
    (h : w.faults.getCartFail = true) :
    GetAllCartItems w (some uid) =
      (w, .panicked (some (respError 500 "Failed to fetch cart"))) := by
  simp [GetAllCartItems, GetCartByUserId, h]

/-- Witness for C7 at a concrete world whose cart lookup fails. -/
theorem getAllCartItems_nil_deref_after_error_witness :
    GetAllCartItems { removeWorld with faults := { getCartFail := true } } (some 1) =
      ({ removeWorld with faults := { getCartFail := true } },
       .panicked (some (respError 500 "Failed to fetch cart"))) :=
  getAllCartItems_nil_deref_after_error
    { removeWorld with faults := { getCartFail := true } } 1 rfl

/-- C10 counterexample: at a concrete world where user 1 owns cart 2 with one
row and the cache holds that cart's entry, the administrative DeleteCart
performs no deletion and no cache invalidation (the world is returned
unchanged, the cart row and the cache entry both survive) and GetCart
performs no lookup (no response is produced). -/
theorem deleteCart_noop_counterexample :
    DeleteCart removeWorld (some 99) 1 = (removeWorld, .ok none) ∧
    (DeleteCart removeWorld (some 99) 1).1.store.carts = [⟨2, 1⟩] ∧
    (DeleteCart removeWorld (some 99) 1).1.cache.lookup (cacheKey 2) =
      some (.good [⟨3, 2, 7, 1⟩]) ∧
    GetCart removeWorld (some 99) 1 = (removeWorld, .ok none) := by
  decide

/-- C10 amended: the administrative cart retrieval and deletion endpoints
exist but their handler bodies are empty: for every world and every caller
they perform no lookup, no deletion and no cache access, returning the
world unchanged and writing no response. -/
theorem admin_handlers_are_noops (w : World) (auth : Option UUID) (target : UUID) :
    GetCart w auth target = (w, .ok none) ∧
    DeleteCart w auth target = (w, .ok none) :=
  ⟨rfl, rfl⟩

/-- C5 counterexample: at concrete worlds, a Cart Store failure is not always
surfaced with status 500 — a failure of loading items from the store during
list-items is surfaced with status 401, and a failure of the product lookup
during add-item is surfaced with status 400. -/
theorem store_failure_not_500_counterexample :
    (GetAllCartItems { cleanWorld with faults := { listItemsFail := true } } (some 1)).2 =
      .ok (some (respError 401 "Failed to fetch")) ∧
    (AddOrUpdateCartItem { cleanWorld with faults := { getProductFail := true } }
        (some 1) ⟨7, 3⟩).2 =
      .ok (some (respError 400 "Product does not exist")) := by
  decide

/-- C8: a cache hit whose payload fails to deserialize makes list-items
report an internal error with status 500; the world is returned unchanged,
so the Cart Store is not consulted as a fallback and the corrupted entry is
not overwritten as if it were a miss. -/
theorem corrupt_cache_hit_internal_error (w : World) (uid : UUID) (cart : Cart)
    (hcart : GetCartByUserId w.faults w.store uid = .ok cart)
    (hget : w.faults.cacheGetErr = false)
    (hhit : w.cache.lookup (cacheKey cart.id) = some .corrupt) :
    GetAllCartItems w (some uid) =
      (w, .ok (some (respError 500 "Failed to parse cache"))) := by
  simp [GetAllCartItems, hcart, cacheGet, hget, hhit]

/-- Witness for C8: a concrete world whose cache entry for the cart is corrupt. -/
theorem corrupt_cache_hit_internal_error_witness :
    GetAllCartItems { cleanWorld with cache := [(cacheKey 2, .corrupt)] } (some 1) =
      ({ cleanWorld with cache := [(cacheKey 2, .corrupt)] },
       .ok (some (respError 500 "Failed to parse cache"))) :=
  corrupt_cache_hit_internal_error
    { cleanWorld with cache := [(cacheKey 2, .corrupt)] } 1 ⟨2, 1⟩
    rfl rfl (by decide)

/-- C9: when the cache get fails with an error distinct from a clean miss
and the Cart Store load succeeds, list-items succeeds: the cart's items are
loaded from the store and returned with status 200, tagged as served from
the store because the cache is down, and the world is returned unchanged
(no cache repopulation is attempted in this branch). -/
theorem cache_error_store_fallback_success (w : World) (uid : UUID) (cart : Cart)
    (hcart : GetCartByUserId w.faults w.store uid = .ok cart)
    (hget : w.faults.cacheGetErr = true)
    (hload : w.faults.listItemsFail = false) :
    GetAllCartItems w (some uid) =
      (w, .ok (some (respSuccess 200 "data fetched from DB (Redis down)"
        (.items (w.store.items.filter (fun it => it.cartID == cart.id)))))) := by
  simp [GetAllCartItems, hcart, cacheGet, hget, GetCartItems, hload]

/-- Witness for C9: a concrete world whose cache is erroring. -/
theorem cache_error_store_fallback_success_witness :
    GetAllCartItems { removeWorld with faults := { cacheGetErr := true } } (some 1) =
      ({ removeWorld with faults := { cacheGetErr := true } },
       .ok (some (respSuccess 200 "data fetched from DB (Redis down)"
         (.items [⟨3, 2, 7, 1⟩])))) :=
  cache_error_store_fallback_success
    { removeWorld with faults := { cacheGetErr := true } } 1 ⟨2, 1⟩
    rfl rfl rfl

/-- C5 amended: a Cart Store failure of the cart lookup is surfaced as an
internal error with status 500 (create-cart and remove-item shown), but a
failure of the product lookup during add-item is surfaced as 400 ("Product
does not exist") and a failure of loading items from the store during
list-items is surfaced as 401 ("Failed to fetch"). -/
theorem store_failure_status_amended
    (wa wb wc wd : World) (ua ub uc ud pidc : UUID) (cc cd : Cart) (q : Int)
    (pidb : Option UUID)
    (ha : wa.faults.getCartFail = true)
    (hb : wb.faults.getCartFail = true)
    (hc1 : GetCartByUserId wc.faults wc.store uc = .ok cc)
    (hc2 : wc.faults.getProductFail = true)
    (hcq : 1 ≤ q)
    (hd1 : GetCartByUserId wd.faults wd.store ud = .ok cd)
    (hd2 : wd.faults.listItemsFail = true)
    (hd3 : cacheGet wd.faults wd.cache (cacheKey cd.id) = .miss) :
    (CreateCart wa (some ua)).2 = .ok (some (respError 500 "Failed to fetch cart")) ∧
    (RemoveCartItemFromCart wb (some ub) pidb).2 =
      .ok (some (respError 500 "Failed to fetch cart")) ∧
    (AddOrUpdateCartItem wc (some uc) ⟨pidc, q⟩).2 =
      .ok (some (respError 400 "Product does not exist")) ∧
    (GetAllCartItems wd (some ud)).2 = .ok (some (respError 401 "Failed to fetch")) := by
  refine ⟨?_, ?_, ?_, ?_⟩
  · simp [CreateCart, GetCartByUserId, ha]
  · simp [RemoveCartItemFromCart, GetCartByUserId, hb]
  · simp [AddOrUpdateCartItem, hc1, GetProductByUUID, hc2, Int.not_lt.mpr hcq]
  · simp [GetAllCartItems, hd1, hd3, GetCartItems, hd2]

/-- Witness for the amended C5 at concrete worlds exercising each branch. -/
theorem store_failure_status_amended_witness :
    (CreateCart { cleanWorld with faults := { getCartFail := true } } (some 1)).2 =
      .ok (some (respError 500 "Failed to fetch cart")) ∧
    (RemoveCartItemFromCart { cleanWorld with faults := { getCartFail := true } }
        (some 1) (some 7)).2 = .ok (some (respError 500 "Failed to fetch cart")) ∧
    (AddOrUpdateCartItem { cleanWorld with faults := { getProductFail := true } }
        (some 1) ⟨7, 3⟩).2 = .ok (some (respError 400 "Product does not exist")) ∧
    (GetAllCartItems { cleanWorld with faults := { listItemsFail := true } } (some 1)).2 =
      .ok (some (respError 401 "Failed to fetch")) :=
  store_failure_status_amended
    { cleanWorld with faults := { getCartFail := true } }
    { cleanWorld with faults := { getCartFail := true } }
    { cleanWorld with faults := { getProductFail := true } }
    { cleanWorld with faults := { listItemsFail := true } }
    1 1 1 1 7 ⟨2, 1⟩ ⟨2, 1⟩ 3 (some 7)
    rfl rfl rfl rfl (by decide) rfl rfl (by decide)

/-- If a filter over a list is empty, a find? with the same predicate misses. -/
theorem find?_none_of_filter_nil {α : Type} (p : α → Bool) :
    ∀ l : List α, l.filter p = [] → l.find? p = none := by
  intro l
  induction l with
  | nil => intro _; rfl
  | cons a t ih =>
      intro h
      by_cases hpa : p a
      · simp [List.filter_cons, hpa] at h
      · rw [List.filter_cons_of_neg (by simpa using hpa)] at h
        simp [List.find?, hpa, ih h]

/-- If a find? over a list misses, the filter with the same predicate is empty. -/
theorem filter_nil_of_find?_none {α : Type} (p : α → Bool) :
    ∀ l : List α, l.find? p = none → l.filter p = [] := by
  intro l
  induction l with
  | nil => intro _; rfl
  | cons a t ih =>
      intro h
      by_cases hpa : p a
      · simp [List.find?, hpa] at h
      · rw [List.find?_cons_of_neg _ (by simpa using hpa)] at h
        simp [List.filter_cons, hpa, ih h]

/-- Searching an appended list when the left part has no match searches the right part. -/
theorem find?_append_of_none {α : Type} (p : α → Bool) :
    ∀ l1 l2 : List α, l1.find? p = none → (l1 ++ l2).find? p = l2.find? p := by
  intro l1 l2
  induction l1 with
  | nil => intro _; rfl
  | cons a t ih =>
      intro h
      by_cases hpa : p a
      · simp [List.find?, hpa] at h
      · rw [List.find?_cons_of_neg _ (by simpa using hpa)] at h
        simpa [List.find?, hpa] using ih h

/-- Replacing the row with a given id leaves a list untouched when no row has
that id. -/
theorem map_replace_id_of_ne (nid : UUID) (x : CartItems) :
    ∀ l : List CartItems, (∀ it ∈ l, it.id ≠ nid) →
      l.map (fun it => if it.id == nid then x else it) = l := by
  intro l
  induction l with
  | nil => intro _; rfl
  | cons a t ih =>
      intro h
      have ha : a.id ≠ nid := h a (by simp)
      simp only [List.map_cons]
      rw [if_neg (by simpa using ha), ih (fun it hit => h it (by simp [hit]))]

/-- C4: cart creation is idempotent and preserves at-most-one-live-cart per
user: when a live cart exists the call returns the world unchanged with a
200 "Cart already exists" success carrying that cart; when the lookup finds
no cart, the call returns 201 "Cart created", afterwards exactly one live
cart exists for the user, and an immediately repeated call leaves the world
unchanged and reports 200 "Cart already exists" — two successive calls
never produce two live carts. -/
theorem createCart_idempotent_single_live_cart
    (w wx : World) (uid uidx : UUID) (c : Cart)
    (hx : GetCartByUserId wx.faults wx.store uidx = .ok c)
    (hf : w.faults = noFaults)
    (hnone : w.store.carts.find? (fun cc => cc.userId == uid) = none) :
    CreateCart wx (some uidx) =
      (wx, .ok (some (respSuccess 200 "Cart already exists" (.cart c)))) ∧
    (CreateCart w (some uid)).2 = .ok (some (respSuccess 201 "Cart created" .nodata)) ∧
    (CreateCart w (some uid)).1.store.carts.filter (fun cc => cc.userId == uid) =
      [⟨w.store.nextId, uid⟩] ∧
    CreateCart (CreateCart w (some uid)).1 (some uid) =
      ((CreateCart w (some uid)).1,
       .ok (some (respSuccess 200 "Cart already exists"
         (.cart ⟨w.store.nextId, uid⟩)))) := by
  have hlookup : GetCartByUserId w.faults w.store uid = .error .notFound := by
    simp [GetCartByUserId, hf, noFaults, hnone]
  have hcf : w.faults.createCartFail = false := by rw [hf]; rfl
  have hgc : w.faults.getCartFail = false := by rw [hf]; rfl
  have hw1 : (CreateCart w (some uid)).1 =
      { w with store := CreateCartStore w.store uid } := by
    simp [CreateCart, hlookup, hcf]
  refine ⟨?_, ?_, ?_, ?_⟩
  · simp [CreateCart, hx]
  · simp [CreateCart, hlookup, hcf]
  · rw [hw1]
    simp only [CreateCartStore, List.filter_append,
      filter_nil_of_find?_none _ _ hnone]
    simp
  · rw [hw1]
    have hfind : (CreateCartStore w.store uid).carts.find?
        (fun cc => cc.userId == uid) = some ⟨w.store.nextId, uid⟩ := by
      simp only [CreateCartStore]
      rw [find?_append_of_none _ _ _ hnone]
      simp [List.find?]
    simp [CreateCart, GetCartByUserId, hgc, hfind]

/-- Witness for C4: a fresh world where user 1 has no cart, and the concrete
world where user 1 already owns cart 2. -/
theorem createCart_idempotent_single_live_cart_witness :
    CreateCart cleanWorld (some 1) =
      (cleanWorld, .ok (some (respSuccess 200 "Cart already exists" (.cart ⟨2, 1⟩)))) ∧
    (CreateCart { cleanWorld with store := { cleanWorld.store with carts := [] } }
        (some 1)).2 = .ok (some (respSuccess 201 "Cart created" .nodata)) ∧
    (CreateCart { cleanWorld with store := { cleanWorld.store with carts := [] } }
        (some 1)).1.store.carts.filter (fun cc => cc.userId == 1) = [⟨10, 1⟩] ∧
    CreateCart (CreateCart { cleanWorld with store := { cleanWorld.store with carts := [] } }
        (some 1)).1 (some 1) =
      ((CreateCart { cleanWorld with store := { cleanWorld.store with carts := [] } }
          (some 1)).1,
       .ok (some (respSuccess 200 "Cart already exists" (.cart ⟨10, 1⟩)))) := by
  have h := createCart_idempotent_single_live_cart
    { cleanWorld with store := { cleanWorld.store with carts := [] } }
    cleanWorld 1 1 ⟨2, 1⟩ rfl rfl rfl
  exact ⟨h.1, h.2.1, h.2.2.1, h.2.2.2⟩

/-- Replacing the row a search finds with a row of the same id that still
satisfies the predicate makes the search return the replacement. -/
theorem find?_map_replace (p : CartItems → Bool) (item newItem : CartItems)
    (nid : UUID) (hnid : nid = item.id) (hnew : p newItem = true) :
    ∀ l : List CartItems, l.find? p = some item →
      (l.map (fun it => if it.id == nid then newItem else it)).find? p =
        some newItem := by
  intro l
  induction l with
  | nil => intro h; simp [List.find?] at h
  | cons a t ih =>
      intro h
      by_cases hpa : p a
      · have ha : a = item := by
          rw [List.find?_cons_of_pos _ (by simpa using hpa)] at h
          exact Option.some.inj h
        subst ha
        simp only [List.map_cons]
        rw [if_pos (by simp [hnid])]
        simp [List.find?, hnew]
      · rw [List.find?_cons_of_neg _ (by simpa using hpa)] at h
        simp only [List.map_cons]
        by_cases hida : (a.id == nid) = true
        · rw [if_pos hida]
          simp [List.find?, hnew]
        · rw [if_neg hida, List.find?_cons_of_neg _ (by simpa using hpa)]
          exact ih h

/-- C2: on an add-item request for a pair that already has a cart-item of
quantity q0, with product stock s: if q0 + q exceeds s the handler fails
with the out-of-stock condition and returns the world unchanged (the stored
quantity stays q0, nothing is persisted); if q0 + q is at most s (boundary
inclusive) the updated quantity q0 + q is persisted and subsequently
retrievable from the store. -/
theorem addOrUpdate_existing_item_stock_boundary
    (w : World) (uid pid : UUID) (cart : Cart) (item : CartItems)
    (prod : Product) (q : Int)
    (hcart : GetCartByUserId w.faults w.store uid = .ok cart)
    (hprod : GetProductByUUID w.faults w.store pid = .ok prod)
    (hitem : GetCartItem w.faults w.store cart.id pid = .ok item)
    (hq : 1 ≤ q)
    (hupd : w.faults.updateItemFail = false) :
    (prod.numberOfStock < item.quantity + q →
       AddOrUpdateCartItem w (some uid) ⟨pid, q⟩ =
         (w, .ok (some (respError 400 "Product out of stock")))) ∧
    (item.quantity + q ≤ prod.numberOfStock →
       GetCartItem w.faults
           (AddOrUpdateCartItem w (some uid) ⟨pid, q⟩).1.store cart.id pid =
         .ok { item with quantity := item.quantity + q }) := by
  have hgi : w.faults.getItemFail = false := by
    by_contra hh
    have ht : w.faults.getItemFail = true := by
      cases hb : w.faults.getItemFail
      · exact absurd hb hh
      · rfl
    simp [GetCartItem, ht] at hitem
  have hfind : w.store.items.find?
      (fun it => it.cartID == cart.id && it.productID == pid) = some item := by
    simp only [GetCartItem, hgi, Bool.false_eq_true, if_false] at hitem
    cases hfd : w.store.items.find?
        (fun it => it.cartID == cart.id && it.productID == pid) with
    | some x => rw [hfd] at hitem; simpa using hitem
    | none => rw [hfd] at hitem; simp at hitem
  have hqlt : ¬ (q < 1) := Int.not_lt.mpr hq
  constructor
  · intro hover
    have hcond : prod.numberOfStock < q + item.quantity := by omega
    simp [AddOrUpdateCartItem, hqlt, hcart, hprod, hitem, hcond]
  · intro hle
    have hcond : ¬ (prod.numberOfStock < q + item.quantity) := by omega
    have hstore : (AddOrUpdateCartItem w (some uid) ⟨pid, q⟩).1.store =
        UpdateCartItem w.store { item with quantity := item.quantity + q } := by
      simp [AddOrUpdateCartItem, hqlt, hcart, hprod, hitem, hcond, hupd]
    rw [hstore]
    have hnew : ((({ item with quantity := item.quantity + q } : CartItems).cartID
        == cart.id) && (({ item with quantity := item.quantity + q } : CartItems).productID
        == pid)) = true := by
      simpa using List.find?_some hfind
    simp only [UpdateCartItem, GetCartItem, hgi, Bool.false_eq_true, if_false]
    rw [find?_map_replace _ item _ item.id rfl hnew w.store.items hfind]

/-- Witness for C2 at a concrete world: cart 2 holds quantity 3 of product 7
whose stock is 5; adding 3 more reports out-of-stock and leaves the world
unchanged, while adding 2 more (the inclusive boundary) persists quantity 5. -/
theorem addOrUpdate_existing_item_stock_boundary_witness :
    AddOrUpdateCartItem removeWorld (some 1) ⟨7, 5⟩ =
      (removeWorld, .ok (some (respError 400 "Product out of stock"))) ∧
    GetCartItem removeWorld.faults
        (AddOrUpdateCartItem removeWorld (some 1) ⟨7, 4⟩).1.store 2 7 =
      .ok ⟨3, 2, 7, 5⟩ :=
  ⟨(addOrUpdate_existing_item_stock_boundary removeWorld 1 7 ⟨2, 1⟩ ⟨3, 2, 7, 1⟩
      ⟨7, 5⟩ 5 rfl rfl rfl (by decide) rfl).1 (by decide),
   (addOrUpdate_existing_item_stock_boundary removeWorld 1 7 ⟨2, 1⟩ ⟨3, 2, 7, 1⟩
      ⟨7, 5⟩ 4 rfl rfl rfl (by decide) rfl).2 (by decide)⟩

/-- C3: for a (cart, product) pair with no live cart-item, adding quantity
q1 and then q2 with q1 + q2 at most the product's stock leaves exactly one
live cart-item row for the pair, whose quantity is q1 + q2: the second add
updated the row inserted by the first instead of inserting a duplicate. -/
theorem addOrUpdate_twice_single_row_sum
    (w : World) (uid pid : UUID) (cart : Cart) (prod : Product) (q1 q2 : Int)
    (hf : w.faults = noFaults)
    (hcart : GetCartByUserId w.faults w.store uid = .ok cart)
    (hprod : GetProductByUUID w.faults w.store pid = .ok prod)
    (hnone : w.store.items.filter
      (fun it => it.cartID == cart.id && it.productID == pid) = [])
    (hfresh : ∀ it ∈ w.store.items, it.id ≠ w.store.nextId)
    (hq1 : 1 ≤ q1) (hq2 : 1 ≤ q2)
    (hs : q1 + q2 ≤ prod.numberOfStock) :
    ((AddOrUpdateCartItem (AddOrUpdateCartItem w (some uid) ⟨pid, q1⟩).1
        (some uid) ⟨pid, q2⟩).1.store.items.filter
        (fun it => it.cartID == cart.id && it.productID == pid)) =
      [⟨w.store.nextId, cart.id, pid, q1 + q2⟩] := by
  have hgi : w.faults.getItemFail = false := by rw [hf]; rfl
  have hci : w.faults.createItemFail = false := by rw [hf]; rfl
  have hui : w.faults.updateItemFail = false := by rw [hf]; rfl
  have hfind1 : w.store.items.find?
      (fun it => it.cartID == cart.id && it.productID == pid) = none :=
    find?_none_of_filter_nil _ _ hnone
  have hitem1 : GetCartItem w.faults w.store cart.id pid = .error .notFound := by
    simp [GetCartItem, hgi, hfind1]
  have hqlt1 : ¬ (q1 < 1) := Int.not_lt.mpr hq1
  have hqlt2 : ¬ (q2 < 1) := Int.not_lt.mpr hq2
  have hcond1 : ¬ (0 + q1 > prod.numberOfStock) := by omega
  have hcond1' : ¬ (q1 > prod.numberOfStock) := by omega
  have hw1 : (AddOrUpdateCartItem w (some uid) ⟨pid, q1⟩).1 =
      { w with store := CreateCartItem w.store cart.id pid q1,
               cache := cacheDel w.faults w.cache (cacheKey cart.id) } := by
    simp [AddOrUpdateCartItem, hqlt1, hcart, hprod, hitem1, hcond1, hcond1', hci]
  rw [hw1]
  have hcart2 : GetCartByUserId w.faults (CreateCartItem w.store cart.id pid q1) uid =
      .ok cart := by
    simpa [GetCartByUserId, CreateCartItem] using hcart
  have hprod2 : GetProductByUUID w.faults (CreateCartItem w.store cart.id pid q1) pid =
      .ok prod := by
    simpa [GetProductByUUID, CreateCartItem] using hprod
  have hfind2 : (CreateCartItem w.store cart.id pid q1).items.find?
      (fun it => it.cartID == cart.id && it.productID == pid) =
      some ⟨w.store.nextId, cart.id, pid, q1⟩ := by
    simp only [CreateCartItem]
    rw [find?_append_of_none _ _ _ hfind1]
    simp [List.find?]
  have hitem2 : GetCartItem w.faults (CreateCartItem w.store cart.id pid q1)
      cart.id pid = .ok ⟨w.store.nextId, cart.id, pid, q1⟩ := by
    simp [GetCartItem, hgi, hfind2]
  have hcond2 : ¬ (prod.numberOfStock < q2 + q1) := by omega
  have hw2 : (AddOrUpdateCartItem
        { w with store := CreateCartItem w.store cart.id pid q1,
                 cache := cacheDel w.faults w.cache (cacheKey cart.id) }
        (some uid) ⟨pid, q2⟩).1.store =
      UpdateCartItem (CreateCartItem w.store cart.id pid q1)
        ⟨w.store.nextId, cart.id, pid, q1 + q2⟩ := by
    have : q1 + q2 = q2 + q1 := by ring
    simp [AddOrUpdateCartItem, hqlt2, hcart2, hprod2, hitem2, hcond2, hui, this]
  rw [hw2]
  simp only [UpdateCartItem, CreateCartItem, List.map_append, List.filter_append]
  rw [map_replace_id_of_ne _ _ _ hfresh, hnone]
  simp

/-- Witness for C3: on the clean world, adding 3 then 2 of product 7 (stock
5) to user 1's empty cart 2 leaves exactly one row for the pair, with
quantity 5. -/
theorem addOrUpdate_twice_single_row_sum_witness :
    ((AddOrUpdateCartItem (AddOrUpdateCartItem cleanWorld (some 1) ⟨7, 3⟩).1
        (some 1) ⟨7, 2⟩).1.store.items.filter
        (fun it => it.cartID == (2 : UUID) && it.productID == (7 : UUID))) =
      [⟨10, 2, 7, 5⟩] :=
  addOrUpdate_twice_single_row_sum cleanWorld 1 7 ⟨2, 1⟩ ⟨7, 5⟩ 3 2
    rfl rfl rfl rfl (by simp [cleanWorld]) (by decide) (by decide) (by decide)
